import Mathlib

/-!
Verification of the notification fan-out and message-rendering core
(`src/trader/notifiers/index.ts`).  The TypeScript source is shallowly
embedded: JavaScript numbers and BigNumber values become exact fractions
(`Frac`), `Date` values become milliseconds-since-epoch (`Nat`),
optional/absent fields become `Option`, and the asynchronous fan-out
becomes an explicit outcome record (the aggregate result, the list of
channel invocations, and the logger's records).
-/

/-! ### Exact fractions

An unnormalized fraction with a positive denominator: every arithmetic
operation the renderer performs (P&L percentages, duration scaling,
fixed-precision rounding) is exact on these, and every operation reduces
inside the kernel, so concrete renderings can be settled by `decide`.
The embedding never divides by zero (divisors are the literals 1000 and
60, a positive display scale, and a nonzero buy price). -/

structure Frac where
  num : Int
  den : Nat
deriving DecidableEq, Repr

instance (n : Nat) : OfNat Frac n := ⟨⟨Int.ofNat n, 1⟩⟩

def Frac.ofInt (n : Int) : Frac := ⟨n, 1⟩

instance : Add Frac :=
  ⟨fun a b => ⟨a.num * b.den + b.num * a.den, a.den * b.den⟩⟩

instance : Sub Frac :=
  ⟨fun a b => ⟨a.num * b.den - b.num * a.den, a.den * b.den⟩⟩

instance : Mul Frac :=
  ⟨fun a b => ⟨a.num * b.num, a.den * b.den⟩⟩

instance : Div Frac :=
  ⟨fun a b =>
    if b.num < 0 then ⟨-(a.num * b.den), a.den * b.num.natAbs⟩
    else ⟨a.num * b.den, a.den * b.num.natAbs⟩⟩

instance : LE Frac := ⟨fun a b => a.num * b.den ≤ b.num * a.den⟩

instance : LT Frac := ⟨fun a b => a.num * b.den < b.num * a.den⟩

instance (a b : Frac) : Decidable (a ≤ b) :=
  inferInstanceAs (Decidable (a.num * b.den ≤ b.num * a.den))

instance (a b : Frac) : Decidable (a < b) :=
  inferInstanceAs (Decidable (a.num * b.den < b.num * a.den))

/-- The largest integer at or below the fraction (denominator positive). -/
def Frac.floor (a : Frac) : Int := Int.fdiv a.num a.den

/-! ### String and number formatting helpers -/

/-- Left-pad a digit string with zeros to length `p`
(used for the fractional part of a fixed-precision rendering). -/
def padZeros (s : String) (p : Nat) : String :=
  String.mk (List.replicate (p - s.length) '0') ++ s

/-- `value.toFixed(precision)` on an exact rational: round to `p` decimal
digits (ties toward positive infinity, matching the ECMAScript `toFixed`
specification of picking the larger candidate integer) and print with
exactly `p` digits after the decimal point (no point when `p = 0`). -/
def toFixed (q : Frac) (p : Nat) : String :=
  let n : Int := (q * ⟨Int.ofNat (10 ^ p), 1⟩ + ⟨1, 2⟩).floor
  let a : Nat := n.natAbs
  let sign : String := if n < 0 then "-" else ""
  if p = 0 then
    sign ++ toString a
  else
    sign ++ toString (a / 10 ^ p) ++ "." ++ padZeros (toString (a % 10 ^ p)) p

/-- The effect of `.replace(/\.?0+$/, "")` in `format`: when the string ends
in at least one `0`, drop every trailing `0` and then one trailing `.` if it
is exposed (the regex matches the leftmost suffix of the form `\.?0+`). -/
def stripTrailingZeros (s : String) : String :=
  let l := s.toList
  if l.getLast? = some '0' then
    let t := (l.reverse.dropWhile (fun c => c = '0')).reverse
    match t.getLast? with
    | some '.' => String.mk t.dropLast
    | _ => String.mk t
  else s

/-- The number branch of `format`: `toFixed` followed by the trailing-zero
strip. -/
def fmtNum (q : Frac) (p : Nat) : String :=
  stripTrailingZeros (toFixed q p)

def pad2 (n : Nat) : String :=
  if n < 10 then "0" ++ toString n else toString n

def pad3 (n : Nat) : String :=
  if n < 10 then "00" ++ toString n
  else if n < 100 then "0" ++ toString n
  else toString n

def pad4 (n : Nat) : String :=
  if n < 10 then "000" ++ toString n
  else if n < 100 then "00" ++ toString n
  else if n < 1000 then "0" ++ toString n
  else toString n

/-- Convert a count of days since 1970-01-01 to a Gregorian
(year, month, day) triple (standard civil-from-days algorithm, restricted
to dates at or after the epoch). -/
def civilFromDays (z0 : Nat) : Nat × Nat × Nat :=
  let z := z0 + 719468
  let era := z / 146097
  let doe := z % 146097
  let yoe := (doe - doe / 1460 + doe / 36524 - doe / 146096) / 365
  let y := yoe + era * 400
  let doy := doe - (365 * yoe + yoe / 4 - yoe / 100)
  let mp := (5 * doy + 2) / 153
  let d := doy - (153 * mp + 2) / 5 + 1
  let m := if mp < 10 then mp + 3 else mp - 9
  (if m ≤ 2 then y + 1 else y, m, d)

/-- `Date.prototype.toISOString` for a date given as milliseconds since the
epoch: `YYYY-MM-DDTHH:MM:SS.sssZ`. -/
def toISOString (ms : Nat) : String :=
  let days := ms / 86400000
  let rem := ms % 86400000
  let ymd := civilFromDays days
  let hh := rem / 3600000
  let mm := rem % 3600000 / 60000
  let ss := rem % 60000 / 1000
  let mss := rem % 1000
  pad4 ymd.1 ++ "-" ++ pad2 ymd.2.1 ++ "-" ++ pad2 ymd.2.2 ++ "T" ++
    pad2 hh ++ ":" ++ pad2 mm ++ ":" ++ pad2 ss ++ "." ++ pad3 mss ++ "Z"

/-- `String.prototype.toUpperCase` (ASCII range, which is all the
configuration uses): uppercase every character. -/
def jsToUpper (s : String) : String :=
  String.mk (s.toList.map Char.toUpper)

/-- `String.prototype.trim`: strip whitespace from both ends. -/
def jsTrim (s : String) : String :=
  String.mk
    (((s.toList.dropWhile Char.isWhitespace).reverse.dropWhile
      Char.isWhitespace).reverse)

/-- Lines 68-72 of the source: `if (reason.slice(-1) == ".") reason =
reason.slice(0, -1)` — drop a trailing full stop. -/
def stripTrailingPeriod (r : String) : String :=
  if r.toList.getLast? = some '.' then String.mk r.toList.dropLast else r

/-- Substring test on character lists (used to state claims of the form
"the body contains the fragment F"). -/
def listIsSubstr (pat : List Char) : List Char → Bool
  | [] => pat.isEmpty
  | c :: cs => pat.isPrefixOf (c :: cs) || listIsSubstr pat cs

/-- `substrB s pat = true` iff `pat` occurs as a contiguous substring of
`s`. -/
def substrB (s pat : String) : Bool :=
  listIsSubstr pat.toList s.toList

/-! ### Data model

The enum and interface declarations (`types/notifier.ts`, `types/bva.ts`,
`types/trader.ts`) and the environment module are imported by
`notifiers/index.ts` but are not part of the provided sources, so they are
modelled from the spec. -/

/-- Modelled from the spec: the `MessageType` severity enumeration from
`types/notifier.ts` (not in the provided sources).  The spec describes it
as "an ordered enumeration (e.g. DEBUG < INFO < SUCCESS < WARN < ERROR)"
whose subject rendering is "{severity} {action}.", so each member's string
value is taken to be its name. -/
inductive MessageType
  | DEBUG
  | INFO
  | SUCCESS
  | WARN
  | ERROR
deriving DecidableEq, Repr

/-- The TypeScript string-enum key (which, under the modelling above, is
also its value — the two lists are parallel either way, which is what the
severity gate relies on). -/
def MessageType.name : MessageType → String
  | .DEBUG => "DEBUG"
  | .INFO => "INFO"
  | .SUCCESS => "SUCCESS"
  | .WARN => "WARN"
  | .ERROR => "ERROR"

/-- The position of a severity in the declaration order. -/
def MessageType.rank : MessageType → Nat
  | .DEBUG => 0
  | .INFO => 1
  | .SUCCESS => 2
  | .WARN => 3
  | .ERROR => 4

/-- `Object.keys(MessageType)` (equally `Object.values` under the
modelling above): the enum names in declaration order. -/
def severityKeys : List String :=
  ["DEBUG", "INFO", "SUCCESS", "WARN", "ERROR"]

/-- `Array.prototype.indexOf`: first index of `s`, or `-1` when absent. -/
def indexOfOr (xs : List String) (s : String) : Int :=
  match xs.findIdx? (fun x => x == s) with
  | some i => (i : Int)
  | none => -1

/-- Modelled from the spec: `PositionType` from `types/bva.ts` (not in the
provided sources); a LONG/SHORT position marker rendered by its name. -/
inductive PositionType
  | LONG
  | SHORT
deriving DecidableEq, Repr

def PositionType.str : PositionType → String
  | .LONG => "LONG"
  | .SHORT => "SHORT"

/-- Modelled from the spec: `SourceType` from `types/trader.ts` (not in the
provided sources); a "string-like enum describing where the event
originated, e.g. \"signal\" vs other". -/
inductive SourceType
  | SIGNAL
  | MANUAL
deriving DecidableEq, Repr

def SourceType.str : SourceType → String
  | .SIGNAL => "signal"
  | .MANUAL => "manual"

/-- Modelled from the spec: the `Signal` record from `types/bva.ts`
(symbol, position type, entry type, strategy name, price, score,
timestamp).  Prices are exact rationals, timestamps are milliseconds since
the epoch, and the score is the raw string the upstream sends (possibly the
literal "NA"). -/
structure Signal where
  entryType : String
  symbol : String
  positionType : PositionType
  strategyName : String
  price : Frac
  score : String
  timestamp : Nat
deriving DecidableEq, Repr

/-- Modelled from the spec: the `TradeOpen` record from `types/bva.ts`
(symbol, position type, quantities, costs, buy/sell prices and timestamps,
strategy name, borrow/wallet/trading-type).  Fields the renderer probes for
presence are `Option`; in the source these are object-typed (BigNumber /
Date), so JavaScript truthiness is exactly presence. -/
structure TradeOpen where
  symbol : String
  positionType : PositionType
  strategyName : String
  priceBuy : Option Frac
  priceSell : Option Frac
  timeBuy : Option Nat
  timeSell : Option Nat
  cost : Option Frac
  quantity : Option Frac
  borrow : Option Frac
  wallet : String
  tradingType : String
deriving DecidableEq, Repr

/-- Modelled from the spec: the resolved settings object returned by
`env()` — channel-enable flags, the minimum severity level name, the
short-vs-verbose switch, and the numeric display precision
(`MAX_WEB_PRECISION`). -/
structure Env where
  IS_NOTIFIER_GMAIL_ENABLED : Bool
  IS_NOTIFIER_TELEGRAM_ENABLED : Bool
  IS_NOTIFIER_SHORT : Bool
  NOTIFIER_LEVEL : String
  MAX_WEB_PRECISION : Nat
deriving DecidableEq, Repr

/-- The `NotifierMessage` record produced by `getNotifierMessage` and
consumed by `notifyAll`. -/
structure NotifierMessage where
  messageType : MessageType
  subject : String
  content : String
  contentHtml : String
deriving DecidableEq, Repr

/-- Modelled from the spec: `calculatePnL` from `src/trader/trader.ts`
(not in the provided sources); the spec describes it as the "percentage
P&L (computed from buy/sell price pair)" whose sign picks the
LOSS!/PROFIT! headline. -/
def calculatePnL (priceBuy priceSell : Frac) : Frac :=
  (priceSell - priceBuy) / priceBuy * 100

/-- The polymorphic values `format` accepts: BigNumber/number, Date,
string, `undefined`, plus the NaN a JavaScript arithmetic expression on an
absent operand produces. -/
inductive FVal
  | num (q : Frac)
  | date (ms : Nat)
  | str (s : String)
  | undef
  | nan
deriving DecidableEq, Repr

/-- `format(value, precision)` (lines 166-178): `undefined` renders empty,
numbers render at fixed precision with trailing zeros (and an exposed
point) stripped, dates render as ISO strings, strings pass through.  `NaN`
goes through `toFixed` unchanged, yielding "NaN". -/
def format (value : FVal) (precision : Nat) : String :=
  match value with
  | .undef => ""
  | .num q => fmtNum q precision
  | .nan => "NaN"
  | .date ms => toISOString ms
  | .str s => s

def fmtOptNum (v : Option Frac) (p : Nat) : String :=
  format (match v with | some q => .num q | none => .undef) p

def fmtOptDate (v : Option Nat) (p : Nat) : String :=
  format (match v with | some d => .date d | none => .undef) p

/-! ### The message renderer (`getNotifierMessage`, lines 42-164) -/

/-- Line 49: the noun of the action clause — "trade" when a trade is
present, else "signal" when a signal is present, else "Notification". -/
def actionNoun (signal : Option Signal) (tradeOpen : Option TradeOpen) : String :=
  if tradeOpen.isSome then "trade"
  else if signal.isSome then "signal"
  else "Notification"

/-- Lines 50-54: the action clause.  The descriptive fields come from the
signal when one is present (the trade contributes fields only when no
signal exists), while the noun follows trade-precedence via `actionNoun`. -/
def actionOf (signal : Option Signal) (tradeOpen : Option TradeOpen) : String :=
  match signal with
  | some s =>
    s.entryType ++ " " ++ s.symbol ++ " " ++ s.positionType.str ++ " " ++
      actionNoun signal tradeOpen ++ "."
  | none =>
    match tradeOpen with
    | some t =>
      t.symbol ++ " " ++ t.positionType.str ++ " " ++
        actionNoun signal tradeOpen ++ "."
    | none => actionNoun signal tradeOpen ++ "."

/-- Lines 57-60: the html prelude — the action bolded for INFO, otherwise
a colour-coded severity badge (green for SUCCESS, red otherwise) followed
by the action and a trailing space. -/
def baseHtmlOf (messageType : MessageType) (action : String) : String :=
  let colour := if messageType = .SUCCESS then "#008000" else "#ff0000"
  if messageType = .INFO then "<b>" ++ action ++ "</b>"
  else "<font color=" ++ colour ++ "><b>" ++ messageType.name ++ "</b></font> " ++
    action ++ " "

/-- Lines 66-84 (the `contentRaw` headline of short mode): starts as the
severity value, overwritten by "LOSS!"/"PROFIT!" when a SUCCESS trade has
both a buy and a sell price. -/
def shortHead (messageType : MessageType) (tradeOpen : Option TradeOpen) : String :=
  match tradeOpen with
  | some t =>
    match t.priceBuy, t.priceSell with
    | some pb, some ps =>
      if messageType = .SUCCESS then
        if calculatePnL pb ps < 0 then "LOSS!" else "PROFIT!"
      else messageType.name
    | _, _ => messageType.name
  | none => messageType.name

/-- Lines 68-110: the fragments short mode collects into `content` —
optional reason (trailing period stripped), then for a trade a SUCCESS
P&L percentage, the cost when present, and a SUCCESS duration auto-scaled
to sec/min/hr, then the source unless it is the "signal" source, then a
trailing empty fragment whenever anything was collected.  (JavaScript
truthiness: an empty reason string is skipped, object-typed trade fields
test presence.) -/
def shortFragments (env : Env) (messageType : MessageType)
    (source : Option SourceType) (tradeOpen : Option TradeOpen)
    (reason : Option String) : List String :=
  let c1 : List String :=
    match reason with
    | some r =>
      if r = "" then []
      else [stripTrailingPeriod r]
    | none => []
  let c2 : List String := c1 ++
    (match tradeOpen with
     | some t =>
       (match t.priceBuy, t.priceSell with
        | some pb, some ps =>
          if messageType = .SUCCESS then
            [fmtNum (calculatePnL pb ps) 3 ++ "%"]
          else []
        | _, _ => []) ++
       (match t.cost with
        | some c => [fmtNum c env.MAX_WEB_PRECISION]
        | none => []) ++
       (match t.timeBuy, t.timeSell with
        | some tb, some ts =>
          if messageType = .SUCCESS then
            let dur0 : Int := (ts : Int) - (tb : Int)
            let dur1 : Int := if t.positionType = .SHORT then 0 - dur0 else dur0
            let dur : Frac := Frac.ofInt dur1 / 1000
            if dur ≤ 60 then [fmtNum dur 1 ++ " sec"]
            else if dur / 60 ≤ 60 then [fmtNum (dur / 60) 1 ++ " min"]
            else [fmtNum (dur / 60 / 60) 1 ++ " hr"]
          else []
        | _, _ => [])
     | none => [])
  let c3 : List String := c2 ++
    (match source with
     | some s => if s ≠ SourceType.SIGNAL then [s.str] else []
     | none => [])
  if c3.isEmpty then c3 else c3 ++ [""]

/-- Lines 120-153: the verbose-mode `content` lines — a leading empty
line, the source line, then signal lines (strategy, price, the score line,
timestamp) or, with no signal but a trade, just the trade's strategy; then
the trade lines; then a blank line and the reason.  The score line pushes
only the label "score: ": in the source the ternary's value is the operand
of a discarded comparison, never pushed. -/
def verboseFragments (env : Env) (source : Option SourceType)
    (signal : Option Signal) (tradeOpen : Option TradeOpen)
    (reason : Option String) : List String :=
  let c1 : List String := [""]
  let c2 : List String := c1 ++
    (match source with
     | some s => ["source: " ++ s.str]
     | none => [])
  let c3 : List String := c2 ++
    (match signal with
     | some s =>
       ["strategy: " ++ s.strategyName,
        "signal price: " ++ fmtNum s.price env.MAX_WEB_PRECISION,
        "score: ",
        "signal received: " ++ toISOString s.timestamp]
     | none =>
       match tradeOpen with
       | some t => ["strategy: " ++ t.strategyName]
       | none => [])
  let c4 : List String := c3 ++
    (match tradeOpen with
     | some t =>
       ["quantity: " ++ fmtOptNum t.quantity env.MAX_WEB_PRECISION,
        "cost: " ++ fmtOptNum t.cost env.MAX_WEB_PRECISION,
        "borrow: " ++ fmtOptNum t.borrow env.MAX_WEB_PRECISION,
        "wallet: " ++ format (.str t.wallet) env.MAX_WEB_PRECISION,
        "type: " ++ format (.str t.tradingType) env.MAX_WEB_PRECISION,
        "trade buy price: " ++ fmtOptNum t.priceBuy env.MAX_WEB_PRECISION,
        "buy executed: " ++ fmtOptDate t.timeBuy env.MAX_WEB_PRECISION,
        "trade sell price: " ++ fmtOptNum t.priceSell env.MAX_WEB_PRECISION,
        "sell executed: " ++ fmtOptDate t.timeSell env.MAX_WEB_PRECISION,
        "LUCRO: " ++ format
          (match t.quantity, t.priceSell, t.priceBuy with
           | some q, some ps, some pb => .num (q * ps - q * pb)
           | _, _, _ => .nan) env.MAX_WEB_PRECISION]
     | none => [])
  c4 ++
    (match reason with
     | some r => if r = "" then [] else ["", r]
     | none => [])

/-- `getNotifierMessage` (lines 42-164): renders subject, raw content and
html content for a notification event, in the mode selected by
`IS_NOTIFIER_SHORT`.  The html content is unconditionally the html prelude
followed by the collected content fragments joined with `<br/>`. -/
def getNotifierMessage (env : Env) (messageType : MessageType)
    (source : Option SourceType) (signal : Option Signal)
    (tradeOpen : Option TradeOpen) (reason : Option String) : NotifierMessage :=
  let action := actionOf signal tradeOpen
  let base := jsTrim (messageType.name ++ " " ++ action)
  let baseHtml := baseHtmlOf messageType action
  if env.IS_NOTIFIER_SHORT then
    let content := shortFragments env messageType source tradeOpen reason
    let raw0 := jsTrim (shortHead messageType tradeOpen ++ " " ++
      String.intercalate ". " content ++ action)
    let raw :=
      match tradeOpen with
      | some t => raw0 ++ " " ++ t.strategyName ++ "."
      | none =>
        match signal with
        | some s => raw0 ++ " " ++ s.strategyName ++ "."
        | none => raw0
    ⟨messageType, base, raw, baseHtml ++ String.intercalate "<br/>" content⟩
  else
    let content := verboseFragments env source signal tradeOpen reason
    ⟨messageType, base, base ++ " " ++ String.intercalate "\n" content,
      baseHtml ++ String.intercalate "<br/>" content⟩

/-! ### The channel registry and fan-out (lines 11-40) -/

/-- The two channel adapters the registry can hold (`gmail()` and
`telegram()`); their transport behaviour is external, so a channel is
identified by its tag and its `notify` behaviour is a parameter of the
fan-out. -/
inductive NotifierChannel
  | gmail
  | telegram
deriving DecidableEq, Repr

/-- `initializeNotifiers` (lines 13-20): pushes the gmail adapter and then
the telegram adapter onto the module-level `notifiers` list when the
corresponding flag is enabled.  The list is never cleared, so the function
maps the previous registry state to the extended one. -/
def initializeNotifiers (env : Env) (notifiers : List NotifierChannel) :
    List NotifierChannel :=
  let l1 := if env.IS_NOTIFIER_GMAIL_ENABLED then notifiers ++ [.gmail] else notifiers
  if env.IS_NOTIFIER_TELEGRAM_ENABLED then l1 ++ [.telegram] else l1

def channelEnabled (env : Env) : NotifierChannel → Bool
  | .gmail => env.IS_NOTIFIER_GMAIL_ENABLED
  | .telegram => env.IS_NOTIFIER_TELEGRAM_ENABLED

/-- The observable outcome of one `notifyAll` call: the settled aggregate
promise, the channel invocations performed (channel, message passed), and
the errors the logger recorded. -/
structure NotifyOutcome (χ E : Type) where
  result : Except E Unit
  calls : List (χ × NotifierMessage)
  log : List E

/-- `Promise.all` over already-determined channel outcomes: the first
rejection in array order, if any. -/
def firstError {E : Type} : List (Except E Unit) → Option E
  | [] => none
  | .ok _ :: rest => firstError rest
  | .error e :: _ => some e

/-- `notifyAll` (lines 23-40): compares the message severity's position
among the enum values with the position of the upper-cased configured
level among the enum keys (−1 when the name is unrecognized); below the
level it resolves at once invoking nothing, otherwise it maps every
registered channel's `notify` over the same message and either resolves,
or logs the first failure once and rejects with it. -/
def notifyAll {χ E : Type} (notify : χ → NotifierMessage → Except E Unit)
    (notifiers : List χ) (env : Env) (msg : NotifierMessage) :
    NotifyOutcome χ E :=
  if indexOfOr severityKeys msg.messageType.name <
      indexOfOr severityKeys (jsToUpper env.NOTIFIER_LEVEL) then
    ⟨.ok (), [], []⟩
  else
    match firstError (notifiers.map (fun c => notify c msg)) with
    | none => ⟨.ok (), notifiers.map (fun c => (c, msg)), []⟩
    | some e => ⟨.error e, notifiers.map (fun c => (c, msg)), [e]⟩

/-! ### Theorems -/

theorem valIndex_eq_rank (m : MessageType) :
    indexOfOr severityKeys m.name = (m.rank : Int) := by
  cases m <;> decide

/-- When the severity gate passes, the fan-out invokes each registry entry
once with the message (shared helper). -/
theorem notifyAll_calls_of_pass {χ E : Type}
    (notify : χ → NotifierMessage → Except E Unit) (notifiers : List χ)
    (env : Env) (msg : NotifierMessage)
    (hpass : ¬ indexOfOr severityKeys msg.messageType.name <
      indexOfOr severityKeys (jsToUpper env.NOTIFIER_LEVEL)) :
    (notifyAll notify notifiers env msg).calls =
      notifiers.map (fun c => (c, msg)) := by
  unfold notifyAll
  rw [if_neg hpass]
  cases firstError (notifiers.map (fun c => notify c msg)) <;> rfl

/-- C1: a message whose severity rank is strictly below the configured
minimum severity's rank makes `notifyAll` resolve successfully with no
channel invoked (and nothing logged). -/
theorem notifyAll_below_level_is_noop {χ E : Type}
    (notify : χ → NotifierMessage → Except E Unit) (notifiers : List χ)
    (env : Env) (msg : NotifierMessage) (lvl : MessageType)
    (hlv : (jsToUpper env.NOTIFIER_LEVEL) = lvl.name)
    (hlt : msg.messageType.rank < lvl.rank) :
    notifyAll notify notifiers env msg = ⟨.ok (), [], []⟩ := by
  unfold notifyAll
  rw [hlv, valIndex_eq_rank, valIndex_eq_rank,
    if_pos (by exact_mod_cast hlt)]

theorem notifyAll_below_level_is_noop_witness :
    (jsToUpper "error" = MessageType.name .ERROR) ∧
    (MessageType.rank .INFO < MessageType.rank .ERROR) ∧
    notifyAll (fun (_ : Unit) (_ : NotifierMessage) => (.ok () : Except String Unit))
      [()] ⟨true, true, false, "error", 6⟩ ⟨.INFO, "s", "c", "h"⟩ =
      ⟨.ok (), [], []⟩ :=
  ⟨by decide, by decide,
    notifyAll_below_level_is_noop _ _ _ _ MessageType.ERROR (by decide) (by decide)⟩

/-- C2: a message whose severity rank is at or above the configured
minimum severity's rank makes `notifyAll` invoke each registry entry's
notify exactly once, every invocation carrying the same rendered
message. -/
theorem notifyAll_at_or_above_calls_each_once {χ E : Type}
    (notify : χ → NotifierMessage → Except E Unit) (notifiers : List χ)
    (env : Env) (msg : NotifierMessage) (lvl : MessageType)
    (hlv : (jsToUpper env.NOTIFIER_LEVEL) = lvl.name)
    (hge : lvl.rank ≤ msg.messageType.rank) :
    (notifyAll notify notifiers env msg).calls =
      notifiers.map (fun c => (c, msg)) := by
  apply notifyAll_calls_of_pass
  rw [hlv, valIndex_eq_rank, valIndex_eq_rank]
  exact not_lt.mpr (by exact_mod_cast hge)

theorem notifyAll_at_or_above_calls_each_once_witness :
    (jsToUpper "info" = MessageType.name .INFO) ∧
    (MessageType.rank .INFO ≤ MessageType.rank .SUCCESS) ∧
    (notifyAll (fun (_ : Bool) (_ : NotifierMessage) => (.ok () : Except String Unit))
      [true, false] ⟨true, true, false, "info", 6⟩
      ⟨.SUCCESS, "s", "c", "h"⟩).calls =
      [(true, (⟨.SUCCESS, "s", "c", "h"⟩ : NotifierMessage)),
       (false, (⟨.SUCCESS, "s", "c", "h"⟩ : NotifierMessage))] :=
  ⟨by decide, by decide,
    notifyAll_at_or_above_calls_each_once _ _ _ _ MessageType.INFO
      (by decide) (by decide)⟩

/-- C3: when the gate passes and some channel's notify rejects,
`notifyAll` rejects with the first failure observed and the logger records
exactly that one error. -/
theorem notifyAll_failure_rejects_and_logs_once {χ E : Type}
    (notify : χ → NotifierMessage → Except E Unit) (notifiers : List χ)
    (env : Env) (msg : NotifierMessage) (lvl : MessageType) (e : E)
    (hlv : (jsToUpper env.NOTIFIER_LEVEL) = lvl.name)
    (hge : lvl.rank ≤ msg.messageType.rank)
    (hfe : firstError (notifiers.map (fun c => notify c msg)) = some e) :
    (notifyAll notify notifiers env msg).result = .error e ∧
    (notifyAll notify notifiers env msg).log = [e] := by
  unfold notifyAll
  rw [hlv, valIndex_eq_rank, valIndex_eq_rank,
    if_neg (not_lt.mpr (by exact_mod_cast hge : (lvl.rank : Int) ≤ msg.messageType.rank)),
    hfe]
  exact ⟨rfl, rfl⟩

theorem notifyAll_failure_rejects_and_logs_once_witness :
    (jsToUpper "info" = MessageType.name .INFO) ∧
    (MessageType.rank .INFO ≤ MessageType.rank .ERROR) ∧
    (firstError ([true, false].map (fun c =>
      if c then (.error "E" : Except String Unit) else .ok ())) = some "E") ∧
    ((notifyAll (fun (c : Bool) (_ : NotifierMessage) =>
        if c then (.error "E" : Except String Unit) else .ok ())
      [true, false] ⟨true, true, false, "info", 6⟩
      ⟨.ERROR, "s", "c", "h"⟩).result = .error "E" ∧
     (notifyAll (fun (c : Bool) (_ : NotifierMessage) =>
        if c then (.error "E" : Except String Unit) else .ok ())
      [true, false] ⟨true, true, false, "info", 6⟩
      ⟨.ERROR, "s", "c", "h"⟩).log = ["E"]) :=
  ⟨by decide, by decide, by decide,
    notifyAll_failure_rejects_and_logs_once _ _ _ _ MessageType.INFO "E"
      (by decide) (by decide) (by decide)⟩

/-- C4: rendering is deterministic — two `getNotifierMessage` calls with
identical severity, source, signal, trade, reason and identical
configuration produce identical subject, raw content and html content (the
embedding of the renderer is a pure function: the source mutates only the
local `content` array and performs no I/O). -/
theorem getNotifierMessage_deterministic
    (env1 env2 : Env) (mt1 mt2 : MessageType)
    (src1 src2 : Option SourceType) (sig1 sig2 : Option Signal)
    (trd1 trd2 : Option TradeOpen) (rsn1 rsn2 : Option String)
    (henv : env1 = env2) (hmt : mt1 = mt2) (hsrc : src1 = src2)
    (hsig : sig1 = sig2) (htrd : trd1 = trd2) (hrsn : rsn1 = rsn2) :
    (getNotifierMessage env1 mt1 src1 sig1 trd1 rsn1).subject =
      (getNotifierMessage env2 mt2 src2 sig2 trd2 rsn2).subject ∧
    (getNotifierMessage env1 mt1 src1 sig1 trd1 rsn1).content =
      (getNotifierMessage env2 mt2 src2 sig2 trd2 rsn2).content ∧
    (getNotifierMessage env1 mt1 src1 sig1 trd1 rsn1).contentHtml =
      (getNotifierMessage env2 mt2 src2 sig2 trd2 rsn2).contentHtml := by
  subst henv hmt hsrc hsig htrd hrsn
  exact ⟨rfl, rfl, rfl⟩

theorem getNotifierMessage_deterministic_witness :
    ((⟨false, false, true, "INFO", 6⟩ : Env) = ⟨false, false, true, "INFO", 6⟩) ∧
    ((getNotifierMessage ⟨false, false, true, "INFO", 6⟩ .SUCCESS
        (some .MANUAL) none
        (some ⟨"AAA", .LONG, "st", some 100, some 110, some 0, some 45000,
          none, none, none, "w", "t"⟩) (some "done")).subject
      = (getNotifierMessage ⟨false, false, true, "INFO", 6⟩ .SUCCESS
        (some .MANUAL) none
        (some ⟨"AAA", .LONG, "st", some 100, some 110, some 0, some 45000,
          none, none, none, "w", "t"⟩) (some "done")).subject ∧
     (getNotifierMessage ⟨false, false, true, "INFO", 6⟩ .SUCCESS
        (some .MANUAL) none
        (some ⟨"AAA", .LONG, "st", some 100, some 110, some 0, some 45000,
          none, none, none, "w", "t"⟩) (some "done")).content
      = (getNotifierMessage ⟨false, false, true, "INFO", 6⟩ .SUCCESS
        (some .MANUAL) none
        (some ⟨"AAA", .LONG, "st", some 100, some 110, some 0, some 45000,
          none, none, none, "w", "t"⟩) (some "done")).content ∧
     (getNotifierMessage ⟨false, false, true, "INFO", 6⟩ .SUCCESS
        (some .MANUAL) none
        (some ⟨"AAA", .LONG, "st", some 100, some 110, some 0, some 45000,
          none, none, none, "w", "t"⟩) (some "done")).contentHtml
      = (getNotifierMessage ⟨false, false, true, "INFO", 6⟩ .SUCCESS
        (some .MANUAL) none
        (some ⟨"AAA", .LONG, "st", some 100, some 110, some 0, some 45000,
          none, none, none, "w", "t"⟩) (some "done")).contentHtml) :=
  ⟨rfl,
    getNotifierMessage_deterministic
      ⟨false, false, true, "INFO", 6⟩ ⟨false, false, true, "INFO", 6⟩
      .SUCCESS .SUCCESS (some .MANUAL) (some .MANUAL) none none
      (some ⟨"AAA", .LONG, "st", some 100, some 110, some 0, some 45000,
        none, none, none, "w", "t"⟩)
      (some ⟨"AAA", .LONG, "st", some 100, some 110, some 0, some 45000,
        none, none, none, "w", "t"⟩)
      (some "done") (some "done") rfl rfl rfl rfl rfl rfl⟩

/-! Concrete inputs used by counterexamples and witnesses. -/

def envShort : Env := ⟨false, false, true, "INFO", 6⟩

def envVerbose : Env := ⟨false, false, false, "INFO", 6⟩

def sigAAA : Signal := ⟨"ENTER", "AAA", .LONG, "sigStrat", 1, "NA", 0⟩

def trdBBB : TradeOpen :=
  ⟨"BBB", .SHORT, "trdStrat", some 100, some 110, some 0, some 45000,
    none, some 1, none, "w", "margin"⟩

/-- The action clause as corrected: the noun follows trade-precedence, but
the descriptive fields follow signal-precedence (when a signal is present
they come from the signal even when a trade is also present; a trade
supplies only symbol and position type, with no entry verb). -/
def amendedAction (signal : Option Signal) (tradeOpen : Option TradeOpen) : String :=
  let noun := if tradeOpen.isSome then "trade"
    else if signal.isSome then "signal" else "Notification"
  match signal, tradeOpen with
  | some s, _ =>
    s.entryType ++ " " ++ s.symbol ++ " " ++ s.positionType.str ++ " " ++ noun ++ "."
  | none, some t => t.symbol ++ " " ++ t.positionType.str ++ " " ++ noun ++ "."
  | none, none => noun ++ "."

/-- C5 counterexample: with both a signal (symbol AAA) and a trade (symbol
BBB) present, the subject's action clause is built from the signal's
fields — the trade's symbol does not appear — so the action is not "built
from the trade's fields" as the claim states. -/
theorem subject_not_from_trade_fields_counterexample :
    (getNotifierMessage envVerbose .INFO none (some sigAAA) (some trdBBB)
      none).subject = "INFO ENTER AAA LONG trade." ∧
    substrB (getNotifierMessage envVerbose .INFO none (some sigAAA)
      (some trdBBB) none).subject "BBB" = false := by
  exact ⟨by decide, by decide⟩

/-- C5 amended: the subject is the severity followed by the amended action
clause — noun by trade-precedence, descriptive fields by
signal-precedence. -/
theorem subject_action_amended (env : Env) (mt : MessageType)
    (src : Option SourceType) (sig : Option Signal) (trd : Option TradeOpen)
    (rsn : Option String) :
    (getNotifierMessage env mt src sig trd rsn).subject =
      jsTrim (mt.name ++ " " ++ amendedAction sig trd) := by
  cases hs : env.IS_NOTIFIER_SHORT <;>
    cases sig <;> cases trd <;>
      simp [getNotifierMessage, hs, amendedAction, actionOf, actionNoun]

def envBogus : Env := ⟨false, false, false, "BOGUS", 6⟩

def msgDebug : NotifierMessage := ⟨.DEBUG, "s", "c", "h"⟩

/-- C6 counterexample: with the unrecognized minimum-severity name
"BOGUS", startup completes without any configuration error
(`initializeNotifiers` returns a registry as usual) and even a
lowest-severity message passes the gate and is delivered to every channel
— the configuration error is neither raised nor does it block anything:
it silently passes. -/
theorem invalid_level_counterexample :
    initializeNotifiers envBogus [] = [] ∧
    (notifyAll (fun (_ : NotifierChannel) (_ : NotifierMessage) =>
        (.ok () : Except String Unit))
      [.gmail] envBogus msgDebug).calls = [(.gmail, msgDebug)] ∧
    (notifyAll (fun (_ : NotifierChannel) (_ : NotifierMessage) =>
        (.ok () : Except String Unit))
      [.gmail] envBogus msgDebug).result = .ok () := by
  exact ⟨rfl, by decide, rfl⟩

/-- C6 amended: an unrecognized minimum-severity name is not detected at
startup; the key lookup yields −1, every message's value index is
non-negative, so the gate never blocks and every message is fanned out to
all registered channels. -/
theorem invalid_level_gate_passes_all {χ E : Type}
    (notify : χ → NotifierMessage → Except E Unit) (notifiers : List χ)
    (env : Env) (msg : NotifierMessage)
    (hbad : severityKeys.findIdx?
      (fun x => x == jsToUpper env.NOTIFIER_LEVEL) = none) :
    (notifyAll notify notifiers env msg).calls =
      notifiers.map (fun c => (c, msg)) := by
  apply notifyAll_calls_of_pass
  have h1 : indexOfOr severityKeys (jsToUpper env.NOTIFIER_LEVEL) = -1 := by
    unfold indexOfOr
    rw [hbad]
  rw [h1, valIndex_eq_rank]
  omega

theorem invalid_level_gate_passes_all_witness :
    (severityKeys.findIdx?
      (fun x => x == jsToUpper envBogus.NOTIFIER_LEVEL) = none) ∧
    (notifyAll (fun (_ : NotifierChannel) (_ : NotifierMessage) =>
        (.ok () : Except String Unit))
      [.gmail, .telegram] envBogus msgDebug).calls =
      [(.gmail, msgDebug), (.telegram, msgDebug)] :=
  ⟨by decide,
    invalid_level_gate_passes_all _ _ _ _ (by decide)⟩

def sigNA : Signal := ⟨"ENTER", "ABC", .LONG, "strat", 1, "NA", 0⟩

/-- C7 (code bug): in verbose mode with a signal whose score is the
literal "NA", the rendered lines contain only the bare label "score: " —
neither "N/A" nor the score value is rendered, because in the source the
ternary's result is an operand of a discarded comparison
(`content.push("score: ") + signal.score === "NA" ? ...`), never pushed.
The same happens for any other score value. -/
theorem verbose_score_line_is_label_only :
    verboseFragments envVerbose none (some sigNA) none none =
      ["", "strategy: strat", "signal price: 1", "score: ",
       "signal received: 1970-01-01T00:00:00.000Z"] ∧
    substrB (getNotifierMessage envVerbose .INFO none (some sigNA) none
      none).content "N/A" = false ∧
    substrB (getNotifierMessage envVerbose .INFO none
      (some ⟨"ENTER", "ABC", .LONG, "strat", 1, "0.9", 0⟩) none
      none).content "score: 0.9" = false := by
  exact ⟨by decide, by decide, by decide⟩

def trd45 : TradeOpen :=
  ⟨"AAA", .LONG, "st", some 100, some 110, some 0, some 45000,
    none, none, none, "w", "t"⟩

def trd5400 : TradeOpen :=
  ⟨"AAA", .LONG, "st", some 100, some 110, some 0, some 5400000,
    none, none, none, "w", "t"⟩

/-- C8 counterexample: a SUCCESS trade bought at T and sold at T+45s in
short mode renders its duration as "45 sec", not "45.0 sec": `toFixed`
produces "45.0" but the shared formatter's trailing-zero strip removes the
".0". -/
theorem duration_45s_counterexample :
    substrB (getNotifierMessage envShort .SUCCESS none none (some trd45)
      none).content "45.0 sec" = false ∧
    substrB (getNotifierMessage envShort .SUCCESS none none (some trd45)
      none).content "45 sec" = true := by
  exact ⟨by decide, by decide⟩

/-- C8 amended: short-mode SUCCESS trade durations are sell-time minus
buy-time auto-scaled to the smallest unit at most 60 — a 45-second
duration renders as the seconds-unit fragment "45 sec" (the formatter
strips the trailing ".0"), and a 5400-second (90-minute) duration renders
as the hours-unit fragment "1.5 hr". -/
theorem duration_autoscaling_amended :
    ("45 sec" ∈ shortFragments envShort .SUCCESS none (some trd45) none) ∧
    substrB (getNotifierMessage envShort .SUCCESS none none (some trd45)
      none).content "45 sec" = true ∧
    ("1.5 hr" ∈ shortFragments envShort .SUCCESS none (some trd5400) none) ∧
    substrB (getNotifierMessage envShort .SUCCESS none none (some trd5400)
      none).content "1.5 hr" = true := by
  exact ⟨by decide, by decide, by decide, by decide⟩

/-- C9 counterexample: in short mode the html body is not only the
bolded/colored variant of the subject action — the collected fragments are
appended to it: with reason "test" the reason fragment appears in the html
body. -/
theorem short_html_counterexample :
    (getNotifierMessage envShort .WARN none none none
      (some "test")).contentHtml =
      "<font color=#ff0000><b>WARN</b></font> Notification. test<br/>" ∧
    substrB (getNotifierMessage envShort .WARN none none none
      (some "test")).contentHtml "test" = true := by
  exact ⟨by decide, by decide⟩

/-- C9 amended: in short mode the html body is the bolded/colored variant
of the subject action followed by the same collected fragments as the raw
body (reason, P&L, cost, duration, source), joined with `<br/>`; it
reduces to the action variant alone exactly when no fragment was
collected. -/
theorem short_html_is_base_plus_fragments (env : Env) (mt : MessageType)
    (src : Option SourceType) (sig : Option Signal) (trd : Option TradeOpen)
    (rsn : Option String) (hshort : env.IS_NOTIFIER_SHORT = true) :
    (getNotifierMessage env mt src sig trd rsn).contentHtml =
      baseHtmlOf mt (actionOf sig trd) ++
        String.intercalate "<br/>" (shortFragments env mt src trd rsn) := by
  simp [getNotifierMessage, hshort]

theorem short_html_is_base_plus_fragments_witness :
    (envShort.IS_NOTIFIER_SHORT = true) ∧
    (getNotifierMessage envShort .WARN none none none
      (some "test")).contentHtml =
      baseHtmlOf .WARN (actionOf none none) ++
        String.intercalate "<br/>"
          (shortFragments envShort .WARN none none (some "test")) :=
  ⟨rfl, short_html_is_base_plus_fragments envShort .WARN none none none
    (some "test") rfl⟩

/-- One `initializeNotifiers` call appends one entry per enabled channel
to the existing registry without clearing it (shared helper). -/
theorem initializeNotifiers_count (env : Env) (l : List NotifierChannel)
    (c : NotifierChannel) :
    (initializeNotifiers env l).count c =
      l.count c + (if channelEnabled env c then 1 else 0) := by
  cases c <;> cases hg : env.IS_NOTIFIER_GMAIL_ENABLED <;>
    cases ht : env.IS_NOTIFIER_TELEGRAM_ENABLED <;>
      simp [initializeNotifiers, channelEnabled, hg, ht, List.count_append,
        List.count_singleton']

/-- After `n` initializations from the empty registry, an enabled channel
occurs `n` times (shared helper). -/
theorem registry_after_n_initializations (env : Env) (c : NotifierChannel)
    (hen : channelEnabled env c = true) (n : Nat) :
    ((initializeNotifiers env)^[n] []).count c = n := by
  induction n with
  | zero => simp
  | succ k ih =>
    rw [Function.iterate_succ_apply', initializeNotifiers_count, ih, hen]
    simp

/-- Counting a pinned pair in the calls list equals counting the channel
in the registry (shared helper). -/
theorem count_map_pair (l : List NotifierChannel) (msg : NotifierMessage)
    (c : NotifierChannel) :
    (l.map (fun x => (x, msg))).count (c, msg) = l.count c := by
  induction l with
  | nil => rfl
  | cons a t ih =>
    simp [List.count_cons, ih, Prod.ext_iff]

/-- C10: the registry is appended to without clearing — after `n`
`initializeNotifiers` calls under the same configuration, each enabled
channel appears `n` times in the registry, and a gate-passing `notifyAll`
call invokes that channel's notify `n` times with the message instead of
once. -/
theorem repeated_initialization_duplicates_notifications {E : Type}
    (notify : NotifierChannel → NotifierMessage → Except E Unit)
    (env : Env) (msg : NotifierMessage) (n : Nat) (c : NotifierChannel)
    (lvl : MessageType)
    (hen : channelEnabled env c = true)
    (hlv : jsToUpper env.NOTIFIER_LEVEL = lvl.name)
    (hge : lvl.rank ≤ msg.messageType.rank) :
    ((initializeNotifiers env)^[n] []).count c = n ∧
    ((notifyAll notify ((initializeNotifiers env)^[n] []) env
      msg).calls).count (c, msg) = n := by
  have h1 := registry_after_n_initializations env c hen n
  refine ⟨h1, ?_⟩
  rw [notifyAll_calls_of_pass]
  · exact (count_map_pair _ msg c).trans h1
  · rw [hlv, valIndex_eq_rank, valIndex_eq_rank]
    exact not_lt.mpr (by exact_mod_cast hge)

theorem repeated_initialization_duplicates_notifications_witness :
    (channelEnabled ⟨true, true, false, "info", 6⟩ .gmail = true) ∧
    (jsToUpper "info" = MessageType.name .INFO) ∧
    (MessageType.rank .INFO ≤ MessageType.rank .SUCCESS) ∧
    (((initializeNotifiers ⟨true, true, false, "info", 6⟩)^[2] []).count
      NotifierChannel.gmail = 2 ∧
     ((notifyAll (fun (_ : NotifierChannel) (_ : NotifierMessage) =>
          (.ok () : Except String Unit))
        ((initializeNotifiers ⟨true, true, false, "info", 6⟩)^[2] [])
        ⟨true, true, false, "info", 6⟩
        ⟨.SUCCESS, "s", "c", "h"⟩).calls).count
        (NotifierChannel.gmail, ⟨.SUCCESS, "s", "c", "h"⟩) = 2) :=
  ⟨by decide, by decide, by decide,
    repeated_initialization_duplicates_notifications _ _ _ 2
      NotifierChannel.gmail MessageType.INFO (by decide) (by decide)
      (by decide)⟩
